import Mathlib

set_option maxRecDepth 8192

/-!
Shallow embedding of `src/api/soneium.js` (the request-routing proxy: the
revision with `pickSeasonPayload`, default season 7, user-agent
`Soneium-Proxy/1.5`), together with theorems settling the frozen claims
about it.

Conventions of the embedding:
* JS strings are Lean `String`; JS numbers reachable in this code are
  modelled as `Option Rat`, with `none` standing for the non-finite values
  (`NaN`, and the infinities, which compare unequal to every finite target
  exactly as `none` does here).
* `undefined`/`null` results of lookups are `Option`.
* The handler's single outbound `fetch` is a function parameter; the
  handler returns, next to the response, the list of targets it fetched,
  so that "no outbound call is made" is expressible.
-/

namespace Suoni

/-- JS whitespace characters recognised by `Number`/`parseInt` trimming
(the common ASCII set plus NBSP). -/
def jsWhitespaceChar (c : Char) : Bool :=
  c == ' ' || c == '\t' || c == '\n' || c == '\r' || c == '\x0b' ||
  c == '\x0c' || c == '\xa0'

/-- Value of a decimal digit character. -/
def digitVal (c : Char) : Nat := c.toNat - 48

/-- Decimal digit string to `Nat`. -/
def digitsToNat (ds : List Char) : Nat :=
  ds.foldl (fun a c => a * 10 + digitVal c) 0

/-- Hex digit test (both cases). -/
def isHexDigitChar (c : Char) : Bool :=
  c.isDigit || ('a' ≤ c && c ≤ 'f') || ('A' ≤ c && c ≤ 'F')

/-- Value of a hex digit character. -/
def hexDigitVal (c : Char) : Nat :=
  if c.isDigit then c.toNat - 48
  else if 'a' ≤ c && c ≤ 'f' then c.toNat - 87
  else c.toNat - 55

/-- Hex digit string to `Nat`. -/
def hexDigitsToNat (ds : List Char) : Nat :=
  ds.foldl (fun a c => a * 16 + hexDigitVal c) 0

/-- ASCII-lowercasing of a string (JS `toLowerCase` on the inputs this
program compares: header names/values and query parameters). -/
def jsLower (s : String) : String := ⟨s.data.map Char.toLower⟩

/-- JS `x || d` for a possibly-absent string: `undefined`/`null` and the
empty string are falsy and select the default. -/
def jsOrStr (o : Option String) (d : String) : String :=
  match o with
  | none => d
  | some s => if s == "" then d else s

/-- Exponent part of a JS numeric string: `[]` means exponent 0; otherwise
`e`/`E`, an optional sign and at least one digit, consuming the rest. -/
def parseExpPart (cs : List Char) : Option Int :=
  match cs with
  | [] => some 0
  | e :: rest =>
    if e == 'e' || e == 'E' then
      let (sgn, rest2) : Int × List Char :=
        match rest with
        | '+' :: r => (1, r)
        | '-' :: r => (-1, r)
        | r => (1, r)
      let (ds, rest3) := rest2.span Char.isDigit
      if ds.isEmpty || !rest3.isEmpty then none
      else some (sgn * (digitsToNat ds : Int))
    else none

/-- The rational `sgn * digits * 10 ^ (e - fracLen)`, built directly with
`mkRat` (decimal-literal value with `fracLen` fractional digits and
exponent `e`). -/
def decToRat (neg : Bool) (digits : Nat) (fracLen : Nat) (e : Int) : Rat :=
  let sgn : Int := if neg then -1 else 1
  match e - (fracLen : Int) with
  | .ofNat k => mkRat (sgn * ((digits * 10 ^ k : Nat) : Int)) 1
  | .negSucc k => mkRat (sgn * (digits : Int)) (10 ^ (k + 1))

/-- Unsigned decimal part of JS `Number(string)` with the sign supplied by
the caller: digits with an optional fraction and exponent (`7`, `7.`,
`.5`, `7e2` all accepted), consuming the whole input. -/
def parseUnsignedDec (neg : Bool) (cs : List Char) : Option Rat :=
  let (ip, rest) := cs.span Char.isDigit
  match rest with
  | '.' :: rest2 =>
    let (fp, rest3) := rest2.span Char.isDigit
    if ip.isEmpty && fp.isEmpty then none
    else
      match parseExpPart rest3 with
      | none => none
      | some e => some (decToRat neg (digitsToNat (ip ++ fp)) fp.length e)
  | _ =>
    if ip.isEmpty then none
    else
      match parseExpPart rest with
      | none => none
      | some e => some (decToRat neg (digitsToNat ip) 0 e)

/-- JS `Number(string)`: trim JS whitespace; empty means 0; a `0x`/`0o`/`0b`
radix prefix (no sign) parses in that base; otherwise an optionally signed
decimal with fraction/exponent.  Non-finite results (`NaN`, `Infinity`) are
`none`. -/
def strToNumber (s : String) : Option Rat :=
  let cs := ((s.data.dropWhile jsWhitespaceChar).reverse.dropWhile
    jsWhitespaceChar).reverse
  match cs with
  | [] => some 0
  | '0' :: x :: rest =>
    if x == 'x' || x == 'X' then
      if !rest.isEmpty && rest.all isHexDigitChar then
        some (mkRat ((hexDigitsToNat rest : Nat) : Int) 1)
      else none
    else if x == 'o' || x == 'O' then
      if !rest.isEmpty && rest.all (fun c => '0' ≤ c && c ≤ '7') then
        some (mkRat ((rest.foldl (fun a c => a * 8 + digitVal c) 0 : Nat) : Int) 1)
      else none
    else if x == 'b' || x == 'B' then
      if !rest.isEmpty && rest.all (fun c => c == '0' || c == '1') then
        some (mkRat ((rest.foldl (fun a c => a * 2 + digitVal c) 0 : Nat) : Int) 1)
      else none
    else parseUnsignedDec false cs
  | '+' :: r => parseUnsignedDec false r
  | '-' :: r => parseUnsignedDec true r
  | _ => parseUnsignedDec false cs

/-- Split a leading `+`/`-` sign off a character list. -/
def signSplit (cs : List Char) : Int × List Char :=
  if cs.headD ' ' == '+' then (1, cs.tail)
  else if cs.headD ' ' == '-' then (-1, cs.tail)
  else (1, cs)

/-- JS `parseInt(s, 10)`: trim leading whitespace, optional sign, then the
longest decimal-digit prefix; no digits means `NaN` (`none`). -/
def parseIntBase10 (s : String) : Option Int :=
  let cs := s.data.dropWhile jsWhitespaceChar
  let (sgn, cs2) := signSplit cs
  let (ds, _) := cs2.span Char.isDigit
  if ds.isEmpty then none else some (sgn * (digitsToNat ds : Int))

/-- Decimal digits of the fractional part `r / d`, up to `fuel` digits
(terminates early on exact expansion; the values this program prints are
exact well before the fuel runs out). -/
def fracDigits : Nat → Nat → Nat → String
  | 0, _, _ => ""
  | fuel + 1, r, d =>
    if r = 0 then ""
    else
      String.singleton (Char.ofNat (48 + (r * 10) / d)) ++
        fracDigits fuel ((r * 10) % d) d

/-- JS `String(q)` for a finite number modelled as a rational. -/
def ratToJsString (q : Rat) : String :=
  let sign := if q.num < 0 then "-" else ""
  let n := q.num.natAbs
  if q.den = 1 then sign ++ toString n
  else sign ++ toString (n / q.den) ++ "." ++ fracDigits 64 (n % q.den) q.den

/-- JS `String(x)` for a possibly-non-finite number. -/
def jsNumToString (o : Option Rat) : String :=
  match o with
  | none => "NaN"
  | some q => ratToJsString q

/-- JS `String(n)` for a `parseInt` result. -/
def jsIntOptToString (o : Option Int) : String :=
  match o with
  | none => "NaN"
  | some n => if n < 0 then "-" ++ toString n.natAbs else toString n.natAbs

/-- JSON values, as produced by `JSON.parse`.  Numbers are rationals (every
finite JS number is one). -/
inductive Json where
  | null : Json
  | bool (b : Bool) : Json
  | num (q : Rat) : Json
  | str (s : String) : Json
  | arr (xs : List Json) : Json
  | obj (fields : List (String × Json)) : Json

/-- First binding of a key in an object's field list (`JSON.parse` keeps the
last duplicate, but the parser below already deduplicates by retaining the
later one, so lookup order is immaterial for parsed values). -/
def lookupField : List (String × Json) → String → Option Json
  | [], _ => none
  | (k, v) :: rest, key => if k == key then some v else lookupField rest key

/-- JS property access `x.f` (with `x?.f` semantics for the non-object
cases this program meets): only genuine objects yield a value. -/
def getField (j : Json) (key : String) : Option Json :=
  match j with
  | .obj fs => lookupField fs key
  | _ => none

/-- JS truthiness of a JSON value (`NaN` never occurs in parsed JSON). -/
def jsTruthy (j : Json) : Bool :=
  match j with
  | .null => false
  | .bool b => b
  | .num q => !(decide (q = 0))
  | .str s => !(s == "")
  | .arr _ => true
  | .obj _ => true

/-- JS `Number(v)` on a JSON value.  Singleton arrays coerce through their
element's string form: numbers, strings, nulls and nested singletons behave
like the element, anything else is `NaN`. -/
def jsToNumber : Json → Option Rat
  | .null => some 0
  | .bool b => some (if b then 1 else 0)
  | .num q => some q
  | .str s => strToNumber s
  | .arr [] => some 0
  | .arr [.bool _] => none
  | .arr [.obj _] => none
  | .arr [x] => jsToNumber x
  | .arr (_ :: _ :: _) => none
  | .obj _ => none

/-- JS `Number(v)` where `v` may be `undefined` (absent property). -/
def toNumberOpt (o : Option Json) : Option Rat :=
  match o with
  | none => none
  | some j => jsToNumber j

/-- JS `===` between two numbers that may be non-finite: `NaN` (and the
infinities, both `none` here) compare unequal to everything. -/
def numEq (a b : Option Rat) : Bool :=
  match a, b with
  | some x, some y => decide (x = y)
  | _, _ => false

/-- Escape of one character inside a JSON string literal, as
`JSON.stringify` emits it. -/
def escJsonChar (c : Char) : String :=
  if c == '"' then "\\\""
  else if c == '\\' then "\\\\"
  else if c == '\n' then "\\n"
  else if c == '\r' then "\\r"
  else if c == '\t' then "\\t"
  else if c == '\x08' then "\\b"
  else if c == '\x0c' then "\\f"
  else if c.toNat < 32 then
    "\\u00" ++ String.singleton (Char.ofNat (if c.toNat / 16 = 1 then 49 else 48)) ++
      String.singleton (Char.ofNat
        (if c.toNat % 16 < 10 then 48 + c.toNat % 16 else 87 + c.toNat % 16))
  else String.singleton c

/-- `JSON.stringify` on a string value. -/
def stringifyString (s : String) : String :=
  "\"" ++ String.join (s.data.map escJsonChar) ++ "\""

/-- `JSON.stringify` on a number (integers print without a point). -/
def stringifyNum (q : Rat) : String := ratToJsString q

mutual

/-- `JSON.stringify` of a JSON value (no replacer, no spacing). -/
def Json.stringify : Json → String
  | .null => "null"
  | .bool b => if b then "true" else "false"
  | .num q => stringifyNum q
  | .str s => stringifyString s
  | .arr xs => "[" ++ stringifyElems xs ++ "]"
  | .obj fs => "\x7b" ++ stringifyMembers fs ++ "\x7d"

/-- Comma-joined `JSON.stringify` of array elements. -/
def stringifyElems : List Json → String
  | [] => ""
  | [x] => Json.stringify x
  | x :: y :: xs => Json.stringify x ++ "," ++ stringifyElems (y :: xs)

/-- Comma-joined `JSON.stringify` of object members. -/
def stringifyMembers : List (String × Json) → String
  | [] => ""
  | [(k, v)] => stringifyString k ++ ":" ++ Json.stringify v
  | (k, v) :: f :: fs =>
    stringifyString k ++ ":" ++ Json.stringify v ++ "," ++ stringifyMembers (f :: fs)

end

/-- JSON insignificant whitespace. -/
def skipWs (cs : List Char) : List Char :=
  cs.dropWhile (fun c => c == ' ' || c == '\t' || c == '\n' || c == '\r')

/-- Insert a member into an object's field list the way JS objects do:
an existing key keeps its position but takes the later value. -/
def objInsert (fs : List (String × Json)) (k : String) (v : Json) :
    List (String × Json) :=
  match fs with
  | [] => [(k, v)]
  | (k0, v0) :: rest =>
    if k0 == k then (k0, v) :: rest else (k0, v0) :: objInsert rest k v

/-- JSON number at the head of the input: optional minus, an integer part
(`0` bare, or a nonzero-led digit run), optional fraction and exponent. -/
def parseJsonNumber (cs : List Char) : Option (Rat × List Char) :=
  let (neg, cs1) : Bool × List Char :=
    match cs with
    | '-' :: r => (true, r)
    | r => (false, r)
  let ipRes : Option (List Char × List Char) :=
    match cs1 with
    | '0' :: rest => some (['0'], rest)
    | c :: _ =>
      if c.isDigit then some (cs1.span Char.isDigit) else none
    | [] => none
  match ipRes with
  | none => none
  | some (ip, rest) =>
    let fracRes : Option (List Char × List Char) :=
      match rest with
      | '.' :: rest2 =>
        let (fp, rest3) := rest2.span Char.isDigit
        if fp.isEmpty then none else some (fp, rest3)
      | _ => some ([], rest)
    match fracRes with
    | none => none
    | some (fp, rest3) =>
      let expRes : Option (Int × List Char) :=
        match rest3 with
        | e :: rest4 =>
          if e == 'e' || e == 'E' then
            let (sgn, rest5) : Int × List Char :=
              match rest4 with
              | '+' :: r => (1, r)
              | '-' :: r => (-1, r)
              | r => (1, r)
            let (ds, rest6) := rest5.span Char.isDigit
            if ds.isEmpty then none
            else some (sgn * (digitsToNat ds : Int), rest6)
          else some (0, rest3)
        | [] => some (0, rest3)
      match expRes with
      | none => none
      | some (e, rest7) =>
        some (decToRat neg (digitsToNat (ip ++ fp)) fp.length e, rest7)

/-- Prepend a character to a pending string-parse result. -/
def consChar (c : Char) (o : Option (String × List Char)) :
    Option (String × List Char) :=
  o.map (fun p => (String.singleton c ++ p.1, p.2))

mutual

/-- JSON value at the head of the input (after skipping whitespace),
fuel-indexed; returns the value and the unconsumed tail. -/
def parseJsonValue : Nat → List Char → Option (Json × List Char)
  | 0, _ => none
  | fuel + 1, cs =>
    match skipWs cs with
    | 'n' :: 'u' :: 'l' :: 'l' :: rest => some (.null, rest)
    | 't' :: 'r' :: 'u' :: 'e' :: rest => some (.bool true, rest)
    | 'f' :: 'a' :: 'l' :: 's' :: 'e' :: rest => some (.bool false, rest)
    | '"' :: rest =>
      match parseJsonString fuel rest with
      | some (s, rest2) => some (.str s, rest2)
      | none => none
    | '[' :: rest =>
      match skipWs rest with
      | ']' :: rest2 => some (.arr [], rest2)
      | _ =>
        match parseJsonElems fuel rest with
        | some (xs, rest2) => some (.arr xs, rest2)
        | none => none
    | '\x7b' :: rest =>
      match skipWs rest with
      | '\x7d' :: rest2 => some (.obj [], rest2)
      | _ =>
        match parseJsonMembers fuel rest with
        | some (ms, rest2) =>
          some (.obj (ms.foldl (fun acc kv => objInsert acc kv.1 kv.2) []), rest2)
        | none => none
    | c :: rest =>
      if c == '-' || c.isDigit then
        match parseJsonNumber (c :: rest) with
        | some (q, rest2) => some (.num q, rest2)
        | none => none
      else none
    | [] => none

/-- One or more comma-separated array elements followed by `]`. -/
def parseJsonElems : Nat → List Char → Option (List Json × List Char)
  | 0, _ => none
  | fuel + 1, cs =>
    match parseJsonValue fuel cs with
    | none => none
    | some (v, rest) =>
      match skipWs rest with
      | ',' :: rest2 =>
        match parseJsonElems fuel rest2 with
        | some (xs, rest3) => some (v :: xs, rest3)
        | none => none
      | ']' :: rest2 => some ([v], rest2)
      | _ => none

/-- One or more comma-separated object members followed by the closing
brace; members are returned in source order. -/
def parseJsonMembers : Nat → List Char →
    Option (List (String × Json) × List Char)
  | 0, _ => none
  | fuel + 1, cs =>
    match skipWs cs with
    | '"' :: rest =>
      match parseJsonString fuel rest with
      | none => none
      | some (k, rest2) =>
        match skipWs rest2 with
        | ':' :: rest3 =>
          match parseJsonValue fuel rest3 with
          | none => none
          | some (v, rest4) =>
            match skipWs rest4 with
            | ',' :: rest5 =>
              match parseJsonMembers fuel rest5 with
              | some (ms, rest6) => some ((k, v) :: ms, rest6)
              | none => none
            | '\x7d' :: rest5 => some ([(k, v)], rest5)
            | _ => none
        | _ => none
    | _ => none

/-- Remainder of a JSON string literal after the opening quote: raw
characters must be at least `0x20`, escapes are the six named ones plus
`\u` with four hex digits (lone surrogates degrade to `NUL`, which this
program never meets). -/
def parseJsonString : Nat → List Char → Option (String × List Char)
  | 0, _ => none
  | fuel + 1, cs =>
    match cs with
    | [] => none
    | '"' :: rest => some ("", rest)
    | '\\' :: rest =>
      match rest with
      | '"' :: r => consChar '"' (parseJsonString fuel r)
      | '\\' :: r => consChar '\\' (parseJsonString fuel r)
      | '/' :: r => consChar '/' (parseJsonString fuel r)
      | 'b' :: r => consChar '\x08' (parseJsonString fuel r)
      | 'f' :: r => consChar '\x0c' (parseJsonString fuel r)
      | 'n' :: r => consChar '\n' (parseJsonString fuel r)
      | 'r' :: r => consChar '\r' (parseJsonString fuel r)
      | 't' :: r => consChar '\t' (parseJsonString fuel r)
      | 'u' :: h1 :: h2 :: h3 :: h4 :: r =>
        if isHexDigitChar h1 && isHexDigitChar h2 && isHexDigitChar h3 &&
            isHexDigitChar h4 then
          consChar (Char.ofNat (hexDigitsToNat [h1, h2, h3, h4]))
            (parseJsonString fuel r)
        else none
      | _ => none
    | c :: rest =>
      if c.toNat < 32 then none else consChar c (parseJsonString fuel rest)

end

/-- `JSON.parse`: a single value with only whitespace around it, else
failure (the handler's `try/catch` turns failure into passthrough). -/
def parseJson (s : String) : Option Json :=
  match parseJsonValue (2 * s.length + 4) s.data with
  | some (v, rest) => if (skipWs rest).isEmpty then some v else none
  | none => none

/-- UTF-8 bytes of one character. -/
def utf8Bytes (c : Char) : List Nat :=
  let n := c.toNat
  if n < 128 then [n]
  else if n < 2048 then [192 + n / 64, 128 + n % 64]
  else if n < 65536 then [224 + n / 4096, 128 + (n / 64) % 64, 128 + n % 64]
  else [240 + n / 262144, 128 + (n / 4096) % 64, 128 + (n / 64) % 64,
    128 + n % 64]

/-- Uppercase hex digit character for a value below 16. -/
def hexDigitUpper (n : Nat) : Char :=
  Char.ofNat (if n < 10 then 48 + n else 55 + n)

/-- Two-digit uppercase hex of a byte. -/
def hexByteUpper (n : Nat) : String :=
  String.singleton (hexDigitUpper (n / 16 % 16)) ++
    String.singleton (hexDigitUpper (n % 16))

/-- `URLSearchParams` percent-encoding of one character. -/
def urlEncodeChar (c : Char) : String :=
  if c.isAlphanum || c == '*' || c == '-' || c == '.' || c == '_' then
    String.singleton c
  else if c == ' ' then "+"
  else String.join ((utf8Bytes c).map (fun b => "%" ++ hexByteUpper b))

/-- `URLSearchParams` percent-encoding of a string. -/
def urlEncode (s : String) : String :=
  String.join (s.data.map urlEncodeChar)

/-- `new URLSearchParams(pairs).toString()`. -/
def queryString (ps : List (String × String)) : String :=
  String.intercalate "&" (ps.map fun kv => urlEncode kv.1 ++ "=" ++ urlEncode kv.2)

/-- Split a URL at the first `://`, returning scheme and remainder. -/
def findSchemeSplit : List Char → Option (List Char × List Char)
  | [] => none
  | ':' :: '/' :: '/' :: rest => some ([], rest)
  | c :: rest => (findSchemeSplit rest).map (fun p => (c :: p.1, p.2))

/-- `new URL(s).host` for the absolute `scheme://...` URLs this program
builds: the authority up to the first `/`, `?` or `#`, userinfo stripped,
lowercased; `none` models the constructor throwing. -/
def urlHost (s : String) : Option String :=
  match findSchemeSplit s.data with
  | none => none
  | some (scheme, rest) =>
    match scheme with
    | [] => none
    | c :: cs =>
      if c.isAlpha &&
          cs.all (fun d => d.isAlphanum || d == '+' || d == '-' || d == '.') then
        let hostPort := rest.takeWhile
          (fun ch => !(ch == '/' || ch == '?' || ch == '#'))
        let afterAt :=
          if hostPort.contains '@' then
            (hostPort.reverse.takeWhile (fun ch => !(ch == '@'))).reverse
          else hostPort
        if afterAt.isEmpty then none
        else some ⟨afterAt.map Char.toLower⟩
      else none

/-- The inbound request, as the handler reads it: method, the query
parameters it consults, and the two host headers. -/
structure Req where
  method : String
  qType : Option String
  qUp : Option String
  qAddress : Option String
  qSeason : Option String
  qRaw : Option String
  hdrXForwardedHost : Option String
  hdrHost : Option String

/-- The same request with a different `season` query parameter. -/
def setSeason (req : Req) (s : Option String) : Req :=
  ⟨req.method, req.qType, req.qUp, req.qAddress, s, req.qRaw,
    req.hdrXForwardedHost, req.hdrHost⟩

/-- The process environment variables the program reads. -/
structure Env where
  CALC_UPSTREAM : Option String
  TX_UPSTREAM : Option String
  BONUS_UPSTREAM : Option String
  DEFAULT_SEASON : Option String
  DEFAULT_TX_SEASON : Option String

/-- The response the handler produces: status, headers (in emission order,
later `setHeader` calls having replaced earlier values in place), and the
body (`none` for a bare `end()`). -/
structure HttpResponse where
  status : Nat
  headers : List (String × String)
  body : Option String

/-- Outcome of the single outbound `fetch`: a response (status,
content-type header, body text) or a thrown network error. -/
inductive FetchResult where
  | success (status : Nat) (contentType : Option String) (body : String) :
      FetchResult
  | failure (err : String) : FetchResult

/-- `CORS_HEADERS` of the source. -/
def corsHeaders : List (String × String) :=
  [("Access-Control-Allow-Origin", "*"),
   ("Access-Control-Allow-Methods", "GET,OPTIONS"),
   ("Access-Control-Allow-Headers", "Content-Type, Authorization"),
   ("Vary", "Origin")]

/-- `res.setHeader` semantics over a header list: replace in place or
append. -/
def hset (hs : List (String × String)) (k v : String) :
    List (String × String) :=
  match hs with
  | [] => [(k, v)]
  | (k0, v0) :: rest =>
    if k0 == k then (k0, v) :: rest else (k0, v0) :: hset rest k v

/-- `res.status(n).json(body)` with the CORS headers already set. -/
def jsonErrorResponse (status : Nat) (body : Json) : HttpResponse :=
  ⟨status, corsHeaders ++ [("Content-Type", "application/json; charset=utf-8")],
    some (Json.stringify body)⟩

/-- Body of the 400 for an unrecognized `type`. -/
def invalidTypeBody : Json :=
  .obj [("error", .str "Invalid type"),
    ("allow", .arr [.str "calc", .str "tx", .str "bonus"])]

/-- Body of the 400 for a bad `address`. -/
def invalidAddressBody : Json := .obj [("error", .str "Invalid address")]

/-- Body of the 400 for a bad `season`. -/
def invalidSeasonBody : Json := .obj [("error", .str "Invalid season")]

/-- Body of the 400 for a self-proxy refusal, echoing the target. -/
def selfProxyBody (target : String) : Json :=
  .obj [("error", .str "Refusing to proxy to self"), ("target", .str target)]

/-- Body of the 502 on a fetch-level failure. -/
def badGatewayBody (detail : String) : Json :=
  .obj [("error", .str "Bad gateway"), ("detail", .str detail)]

/-- `isAddress` of the source: `/^0x[a-fA-F0-9]{40}$/i`. -/
def isAddress (s : String) : Bool :=
  match s.data with
  | '0' :: x :: rest =>
    (x == 'x' || x == 'X') && rest.length == 40 && rest.all isHexDigitChar
  | _ => false

/-- The request kind: `type`, legacy alias `up`, default `calc`; lowercased;
`calculator` and `base` normalize to `calc`. -/
def requestType (req : Req) : String :=
  let typeRaw := jsOrStr req.qType (jsOrStr req.qUp "calc")
  let t := jsLower typeRaw
  if t == "calculator" || t == "base" then "calc" else t

/-- `address` query parameter, empty string when absent. -/
def requestAddress (req : Req) : String := jsOrStr req.qAddress ""

/-- Whether a `season` parameter was supplied (non-null and non-empty). -/
def hasSeasonParam (req : Req) : Bool :=
  match req.qSeason with
  | none => false
  | some s => !(s == "")

/-- `parseInt(seasonRaw, 10)` when a season was supplied, else absent. -/
def seasonOf (req : Req) : Option Int :=
  if hasSeasonParam req then parseIntBase10 (req.qSeason.getD "") else none

/-- The `raw` boolean-ish flag: `1` or `true`, case-insensitively. -/
def wantRaw (req : Req) : Bool :=
  let rp := jsLower (jsOrStr req.qRaw "")
  rp == "1" || rp == "true"

/-- `['calc', 'tx', 'bonus'].includes(type)`. -/
def isValidType (req : Req) : Bool :=
  requestType req == "calc" || requestType req == "tx" ||
    requestType req == "bonus"

/-- The season-validation guard: kinds `tx`/`calc`, season supplied, and
`parseInt` gave `NaN` or a negative value. -/
def invalidSeason (req : Req) : Bool :=
  (requestType req == "tx" || requestType req == "calc") &&
    hasSeasonParam req &&
    (match seasonOf req with
     | none => true
     | some n => decide (n < 0))

/-- `UPSTREAMS.calc`, overridable by `CALC_UPSTREAM`. -/
def upstreamCalc (env : Env) : String :=
  jsOrStr env.CALC_UPSTREAM "https://portal.soneium.org/api/profile/calculator"

/-- `UPSTREAMS.tx`, overridable by `TX_UPSTREAM`. -/
def upstreamTx (env : Env) : String :=
  jsOrStr env.TX_UPSTREAM "https://portal.soneium.org/api/profile/tx-per-season"

/-- `UPSTREAMS.bonus`, overridable by `BONUS_UPSTREAM`. -/
def upstreamBonus (env : Env) : String :=
  jsOrStr env.BONUS_UPSTREAM "https://portal.soneium.org/api/profile/bonus-dapp"

/-- `DEFAULT_SEASON = Number(process.env.DEFAULT_SEASON || 7)`. -/
def defaultSeason (env : Env) : Option Rat :=
  match env.DEFAULT_SEASON with
  | none => some 7
  | some s => if s == "" then some 7 else strToNumber s

/-- `DEFAULT_TX_SEASON = Number(process.env.DEFAULT_TX_SEASON ||
DEFAULT_SEASON)` (`Number` is the identity on the already-coerced
`DEFAULT_SEASON`). -/
def defaultTxSeason (env : Env) : Option Rat :=
  match env.DEFAULT_TX_SEASON with
  | none => defaultSeason env
  | some s => if s == "" then defaultSeason env else strToNumber s

/-- The target season of the calc shaper: the explicit request season if
supplied, else `DEFAULT_SEASON`. -/
def seasonToPick (env : Env) (req : Req) : Option Rat :=
  if hasSeasonParam req then
    match seasonOf req with
    | none => none
    | some n => some (mkRat n 1)
  else defaultSeason env

/-- The whitelisted outbound target URL for a validated request. -/
def resolveTarget (env : Env) (req : Req) : String :=
  if requestType req == "calc" then
    upstreamCalc env ++ "?" ++ queryString [("address", requestAddress req)]
  else if requestType req == "tx" then
    let seasonForTx :=
      if hasSeasonParam req then jsIntOptToString (seasonOf req)
      else jsNumToString (defaultTxSeason env)
    upstreamTx env ++ "?" ++
      queryString [("address", requestAddress req), ("season", seasonForTx)]
  else if requestType req == "bonus" then
    upstreamBonus env ++ "?" ++ queryString [("address", requestAddress req)]
  else ""

/-- The inbound request's declared host: `x-forwarded-host` preferred,
`host` as fallback, empty string when both are missing. -/
def reqHostOf (req : Req) : String :=
  jsOrStr req.hdrXForwardedHost (jsOrStr req.hdrHost "")

/-- `isSelfProxy` of the source: the target's host equals the inbound
host, compared case-insensitively; URL-parse failure means `false`. -/
def isSelfProxy (target : String) (req : Req) : Bool :=
  match urlHost target with
  | none => false
  | some th =>
    !(th == "") && !(reqHostOf req == "") &&
      jsLower th == jsLower (reqHostOf req)

/-- `pickSeasonPayload` of the source: a truthiness guard; a single
non-array object whose `season` matches is returned directly; a bare array
is searched linearly; an object wrapping an array under `seasons`, `data`
or `items` is unwrapped and searched; otherwise `undefined`. -/
def wrapperArray (data : Json) : Option (List Json) :=
  match getField data "seasons" with
  | some (.arr xs) => some xs
  | _ =>
    match getField data "data" with
    | some (.arr xs) => some xs
    | _ =>
      match getField data "items" with
      | some (.arr xs) => some xs
      | _ => none

/-- Does `Number(d?.season) === Number(seasonToPick)` hold for a record? -/
def seasonMatches (target : Option Rat) (d : Json) : Bool :=
  numEq (toNumberOpt (getField d "season")) target

/-- `pickSeasonPayload(data, seasonToPick)` of the source. -/
def pickSeasonPayload (data : Json) (target : Option Rat) : Option Json :=
  if !(jsTruthy data) then none
  else if (match data with | .obj _ => true | _ => false) &&
      seasonMatches target data then some data
  else
    match data with
    | .arr xs => xs.find? (seasonMatches target)
    | .obj _ =>
      match wrapperArray data with
      | some xs => xs.find? (seasonMatches target)
      | none => none
    | _ => none

/-- `upstream.ok`: a 2xx status. -/
def statusOk (st : Nat) : Bool := decide (200 ≤ st) && decide (st ≤ 299)

/-- The relay headers set on every successful fetch before any calc
shaping. -/
def baseRelayHeaders (env : Env) (target upstreamCT : String) :
    List (String × String) :=
  [("Content-Type", upstreamCT),
   ("Cache-Control", "s-maxage=60, stale-while-revalidate=300"),
   ("X-Proxy-Target", target),
   ("X-Season-Default", jsNumToString (defaultSeason env))] ++ corsHeaders

/-- The header state after the shaper has forced the JSON content type and
recorded the requested season. -/
def shapedHeaders (env : Env) (req : Req) (target : String)
    (ct : Option String) : List (String × String) :=
  hset
    (hset (baseRelayHeaders env target (jsOrStr ct "application/json; charset=utf-8"))
      "Content-Type" "application/json; charset=utf-8")
    "X-Calc-Season-Requested" (jsNumToString (seasonToPick env req))

/-- Relay of a fetched upstream response: calc shaping (season selection,
forced JSON content type, hit/miss headers) when the kind is `calc`, the
status is 2xx, `raw` was not requested and the body parses as JSON;
verbatim passthrough otherwise. -/
def relayResponse (env : Env) (req : Req) (target : String) (st : Nat)
    (ct : Option String) (bodyText : String) : HttpResponse :=
  let h0 := baseRelayHeaders env target
    (jsOrStr ct "application/json; charset=utf-8")
  if requestType req == "calc" && statusOk st && !(wantRaw req) then
    match parseJson bodyText with
    | none => ⟨st, h0, some bodyText⟩
    | some data =>
      let h1 := shapedHeaders env req target ct
      match pickSeasonPayload data (seasonToPick env req) with
      | some v =>
        if jsTruthy v then
          ⟨st, hset h1 "X-Calc-Match" "hit", some (Json.stringify v)⟩
        else ⟨st, hset h1 "X-Calc-Match" "miss", some "0"⟩
      | none => ⟨st, hset h1 "X-Calc-Match" "miss", some "0"⟩
  else ⟨st, h0, some bodyText⟩

/-- The request handler of `src/api/soneium.js`, returning the response
and the list of outbound targets actually fetched. -/
def handler (env : Env) (req : Req) (fetchFn : String → FetchResult) :
    HttpResponse × List String :=
  if req.method == "OPTIONS" then (⟨204, corsHeaders, none⟩, [])
  else if !(req.method == "GET") then
    (jsonErrorResponse 405 (.obj [("error", .str "Method Not Allowed")]), [])
  else if !(isValidType req) then (jsonErrorResponse 400 invalidTypeBody, [])
  else if !(isAddress (requestAddress req)) then
    (jsonErrorResponse 400 invalidAddressBody, [])
  else if invalidSeason req then (jsonErrorResponse 400 invalidSeasonBody, [])
  else
    let target := resolveTarget env req
    if isSelfProxy target req then
      (jsonErrorResponse 400 (selfProxyBody target), [])
    else
      match fetchFn target with
      | .failure e => (jsonErrorResponse 502 (badGatewayBody e), [target])
      | .success st ct bodyText =>
        (relayResponse env req target st ct bodyText, [target])

/-- A record whose `season` field coerces to a matching number is a genuine
object: property access yields a value only on objects. -/
theorem seasonMatches_obj {t : Option Rat} {d : Json}
    (h : seasonMatches t d = true) : ∃ fs, d = .obj fs := by
  cases d with
  | obj fs => exact ⟨fs, rfl⟩
  | null => simp [seasonMatches, getField, toNumberOpt, numEq] at h
  | bool b => simp [seasonMatches, getField, toNumberOpt, numEq] at h
  | num q => simp [seasonMatches, getField, toNumberOpt, numEq] at h
  | str s => simp [seasonMatches, getField, toNumberOpt, numEq] at h
  | arr xs => simp [seasonMatches, getField, toNumberOpt, numEq] at h

/-- On a bare array the source's selection is a linear `find` for the
first record whose `season` field coerces to the target. -/
theorem pickSeasonPayload_arr (xs : List Json) (t : Option Rat) :
    pickSeasonPayload (.arr xs) t = xs.find? (seasonMatches t) := rfl

/-- On an object the source's selection first tries the object itself,
then an array wrapped under `seasons`/`data`/`items`. -/
theorem pickSeasonPayload_obj (fs : List (String × Json)) (t : Option Rat) :
    pickSeasonPayload (.obj fs) t =
      if seasonMatches t (.obj fs) then some (.obj fs)
      else
        match wrapperArray (.obj fs) with
        | some xs => xs.find? (seasonMatches t)
        | none => none := rfl

/-- Whatever `pickSeasonPayload` selects is truthy (it is always an
object), so the `hit` branch of the shaper fires whenever selection
succeeds. -/
theorem pickSeasonPayload_truthy {data : Json} {t : Option Rat} {v : Json}
    (h : pickSeasonPayload data t = some v) : jsTruthy v = true := by
  cases data with
  | null => simp [pickSeasonPayload, jsTruthy] at h
  | bool b => cases b <;> simp [pickSeasonPayload, jsTruthy] at h
  | num q =>
    by_cases hq : q = 0 <;> simp [pickSeasonPayload, jsTruthy, hq] at h
  | str s =>
    by_cases hs : s = "" <;> simp [pickSeasonPayload, jsTruthy, hs] at h
  | arr xs =>
    rw [pickSeasonPayload_arr] at h
    obtain ⟨fs, rfl⟩ := seasonMatches_obj (List.find?_some h)
    rfl
  | obj fs =>
    rw [pickSeasonPayload_obj] at h
    by_cases hm : seasonMatches t (.obj fs) = true
    · rw [if_pos hm] at h
      obtain ⟨rfl⟩ : Json.obj fs = v := by injection h
      rfl
    · rw [if_neg hm] at h
      cases hw : wrapperArray (.obj fs) with
      | none => rw [hw] at h; exact absurd h (by simp)
      | some xs =>
        rw [hw] at h
        obtain ⟨gs, rfl⟩ := seasonMatches_obj (List.find?_some h)
        rfl

/-- The calc shaper fires exactly when the kind is `calc`, the upstream
status is 2xx and `raw` was not requested; this names that guard. -/
theorem shapingGuard_true {req : Req} {st : Nat}
    (ht : requestType req = "calc") (hok : statusOk st = true)
    (hr : wantRaw req = false) :
    (requestType req == "calc" && statusOk st && !(wantRaw req)) = true := by
  simp [ht, hok, hr]

/-- Shaped relay, hit case: the selected record is returned serialized,
with the match header set to `hit`. -/
theorem relayResponse_hit {env : Env} {req : Req} {target : String}
    {st : Nat} {ct : Option String} {bodyText : String} {data v : Json}
    (ht : requestType req = "calc") (hok : statusOk st = true)
    (hr : wantRaw req = false) (hp : parseJson bodyText = some data)
    (hpick : pickSeasonPayload data (seasonToPick env req) = some v) :
    relayResponse env req target st ct bodyText =
      ⟨st, hset (shapedHeaders env req target ct) "X-Calc-Match" "hit",
        some (Json.stringify v)⟩ := by
  unfold relayResponse
  rw [shapingGuard_true ht hok hr]
  simp [hp, hpick, pickSeasonPayload_truthy hpick]

/-- Shaped relay, miss case: the body is replaced by the literal `0` and
the match header set to `miss`. -/
theorem relayResponse_miss {env : Env} {req : Req} {target : String}
    {st : Nat} {ct : Option String} {bodyText : String} {data : Json}
    (ht : requestType req = "calc") (hok : statusOk st = true)
    (hr : wantRaw req = false) (hp : parseJson bodyText = some data)
    (hpick : pickSeasonPayload data (seasonToPick env req) = none) :
    relayResponse env req target st ct bodyText =
      ⟨st, hset (shapedHeaders env req target ct) "X-Calc-Match" "miss",
        some "0"⟩ := by
  unfold relayResponse
  rw [shapingGuard_true ht hok hr]
  simp [hp, hpick]

/-- Shaped relay, unparseable body: the `JSON.parse` failure is caught and
the body passes through with the base headers. -/
theorem relayResponse_badJson {env : Env} {req : Req} {target : String}
    {st : Nat} {ct : Option String} {bodyText : String}
    (hp : parseJson bodyText = none) :
    relayResponse env req target st ct bodyText =
      ⟨st, baseRelayHeaders env target
        (jsOrStr ct "application/json; charset=utf-8"), some bodyText⟩ := by
  unfold relayResponse
  by_cases hg : (requestType req == "calc" && statusOk st && !(wantRaw req)) = true
  · rw [hg]; simp [hp]
  · rw [Bool.not_eq_true] at hg; rw [hg]; simp

/-- Unshaped relay: when the shaping guard is false the upstream body,
status and headers pass through verbatim. -/
theorem relayResponse_passthrough {env : Env} {req : Req} {target : String}
    {st : Nat} {ct : Option String} {bodyText : String}
    (hg : (requestType req == "calc" && statusOk st && !(wantRaw req)) = false) :
    relayResponse env req target st ct bodyText =
      ⟨st, baseRelayHeaders env target
        (jsOrStr ct "application/json; charset=utf-8"), some bodyText⟩ := by
  unfold relayResponse
  rw [hg]
  simp

/-- Reduction of the handler on a validated GET request that is not a
self-proxy and whose fetch succeeds. -/
theorem handler_success (env : Env) (req : Req) (fetchFn : String → FetchResult)
    (st : Nat) (ct : Option String) (bodyText : String)
    (hm : req.method = "GET") (hv : isValidType req = true)
    (ha : isAddress (requestAddress req) = true)
    (hs : invalidSeason req = false)
    (hsp : isSelfProxy (resolveTarget env req) req = false)
    (hf : fetchFn (resolveTarget env req) = .success st ct bodyText) :
    handler env req fetchFn =
      (relayResponse env req (resolveTarget env req) st ct bodyText,
        [resolveTarget env req]) := by
  unfold handler
  rw [hm]
  simp [hv, ha, hs, hsp, hf]

/-- Reduction of the handler on a validated GET request that is not a
self-proxy and whose fetch throws: a 502 after one outbound call. -/
theorem handler_failure (env : Env) (req : Req) (fetchFn : String → FetchResult)
    (e : String)
    (hm : req.method = "GET") (hv : isValidType req = true)
    (ha : isAddress (requestAddress req) = true)
    (hs : invalidSeason req = false)
    (hsp : isSelfProxy (resolveTarget env req) req = false)
    (hf : fetchFn (resolveTarget env req) = .failure e) :
    handler env req fetchFn =
      (jsonErrorResponse 502 (badGatewayBody e), [resolveTarget env req]) := by
  unfold handler
  rw [hm]
  simp [hv, ha, hs, hsp, hf]

/-- Reduction of the handler when the self-proxy guard trips: a 400
echoing the target, with no outbound call. -/
theorem handler_selfProxy (env : Env) (req : Req) (fetchFn : String → FetchResult)
    (hm : req.method = "GET") (hv : isValidType req = true)
    (ha : isAddress (requestAddress req) = true)
    (hs : invalidSeason req = false)
    (hsp : isSelfProxy (resolveTarget env req) req = true) :
    handler env req fetchFn =
      (jsonErrorResponse 400 (selfProxyBody (resolveTarget env req)), []) := by
  unfold handler
  rw [hm]
  simp [hv, ha, hs, hsp]

/-- Reduction of the handler on a GET with an unrecognized kind. -/
theorem handler_badType (env : Env) (req : Req) (fetchFn : String → FetchResult)
    (hm : req.method = "GET") (hv : isValidType req = false) :
    handler env req fetchFn = (jsonErrorResponse 400 invalidTypeBody, []) := by
  unfold handler
  rw [hm]
  simp [hv]

/-- Reduction of the handler on a GET with a bad address. -/
theorem handler_badAddress (env : Env) (req : Req)
    (fetchFn : String → FetchResult)
    (hm : req.method = "GET") (hv : isValidType req = true)
    (ha : isAddress (requestAddress req) = false) :
    handler env req fetchFn = (jsonErrorResponse 400 invalidAddressBody, []) := by
  unfold handler
  rw [hm]
  simp [hv, ha]

/-- Reduction of the handler on a GET with a bad season. -/
theorem handler_badSeason (env : Env) (req : Req)
    (fetchFn : String → FetchResult)
    (hm : req.method = "GET") (hv : isValidType req = true)
    (ha : isAddress (requestAddress req) = true)
    (hs : invalidSeason req = true) :
    handler env req fetchFn = (jsonErrorResponse 400 invalidSeasonBody, []) := by
  unfold handler
  rw [hm]
  simp [hv, ha, hs]

/-- The base relay headers carry no `X-Calc-Match`. -/
theorem lookup_base_match (env : Env) (target uct : String) :
    List.lookup "X-Calc-Match" (baseRelayHeaders env target uct) = none := rfl

/-- The base relay headers carry no `X-Calc-Season-Requested`. -/
theorem lookup_base_seasonReq (env : Env) (target uct : String) :
    List.lookup "X-Calc-Season-Requested" (baseRelayHeaders env target uct) =
      none := rfl

/-- The base relay headers carry the upstream content type. -/
theorem lookup_base_contentType (env : Env) (target uct : String) :
    List.lookup "Content-Type" (baseRelayHeaders env target uct) = some uct :=
  rfl

/-- After a hit the match header reads `hit`. -/
theorem lookup_shaped_hit (env : Env) (req : Req) (target : String)
    (ct : Option String) :
    List.lookup "X-Calc-Match"
      (hset (shapedHeaders env req target ct) "X-Calc-Match" "hit") =
      some "hit" := rfl

/-- After a miss the match header reads `miss`. -/
theorem lookup_shaped_miss (env : Env) (req : Req) (target : String)
    (ct : Option String) :
    List.lookup "X-Calc-Match"
      (hset (shapedHeaders env req target ct) "X-Calc-Match" "miss") =
      some "miss" := rfl

/-- The shaped headers force the JSON content type (hit case). -/
theorem lookup_shaped_hit_ct (env : Env) (req : Req) (target : String)
    (ct : Option String) :
    List.lookup "Content-Type"
      (hset (shapedHeaders env req target ct) "X-Calc-Match" "hit") =
      some "application/json; charset=utf-8" := rfl

/-- The shaped headers record the requested season (miss case). -/
theorem lookup_shaped_miss_seasonReq (env : Env) (req : Req) (target : String)
    (ct : Option String) :
    List.lookup "X-Calc-Season-Requested"
      (hset (shapedHeaders env req target ct) "X-Calc-Match" "miss") =
      some (jsNumToString (seasonToPick env req)) := rfl

/-- An empty environment: every upstream and season default applies. -/
def env0 : Env := ⟨none, none, none, none, none⟩

/-- A well-formed EVM address. -/
def addr0 : String := "0xaaaaaaaaaaaaaaaaaaaaaaaaaaaaaaaaaaaaaaaa"

/-- C1: for every primary-kind (calc) GET request with a valid address,
the raw flag unset, a successful 2xx upstream fetch and a JSON body in
which the source's selection (single matching object, bare array, or
wrapper object searched linearly for the first record whose `season`
coerces to the target season — the explicit request season if supplied,
else the configured default) finds a record, the handler returns exactly
that record serialized as JSON and sets `X-Calc-Match` to `hit`. -/
theorem calc_hit_first_match (env : Env) (req : Req)
    (fetchFn : String → FetchResult) (st : Nat) (ct : Option String)
    (bodyText : String) (data v : Json)
    (hm : req.method = "GET")
    (ht : requestType req = "calc")
    (ha : isAddress (requestAddress req) = true)
    (hs : invalidSeason req = false)
    (hr : wantRaw req = false)
    (hsp : isSelfProxy (resolveTarget env req) req = false)
    (hf : fetchFn (resolveTarget env req) = .success st ct bodyText)
    (hok : statusOk st = true)
    (hp : parseJson bodyText = some data)
    (hpick : pickSeasonPayload data (seasonToPick env req) = some v) :
    (handler env req fetchFn).1.status = st ∧
    (handler env req fetchFn).1.body = some (Json.stringify v) ∧
    List.lookup "X-Calc-Match" (handler env req fetchFn).1.headers =
      some "hit" := by
  have hv : isValidType req = true := by simp [isValidType, ht]
  rw [handler_success env req fetchFn st ct bodyText hm hv ha hs hsp hf,
    relayResponse_hit ht hok hr hp hpick]
  exact ⟨rfl, rfl, lookup_shaped_hit env req (resolveTarget env req) ct⟩

/-- Calc request with no explicit season against an upstream array holding
seasons 6 and 7. -/
def reqC1 : Req := ⟨"GET", none, none, some addr0, none, none, none, none⟩

/-- Upstream body for the hit witness. -/
def bodyC1 : String := "[\x7b\"season\":6\x7d,\x7b\"season\":7,\"x\":1\x7d]"

/-- Upstream fetch for the hit witness. -/
def fetchC1 : String → FetchResult :=
  fun _ => .success 200 (some "application/json") bodyC1

/-- Parsed form of `bodyC1`. -/
def dataC1 : Json :=
  .arr [.obj [("season", .num 6)], .obj [("season", .num 7), ("x", .num 1)]]

/-- The season-7 record of `bodyC1`. -/
def recC1 : Json := .obj [("season", .num 7), ("x", .num 1)]

/-- C1 witness: the default-season (7) record is returned as a JSON
object with the hit header. -/
theorem calc_hit_first_match_witness :
    (handler env0 reqC1 fetchC1).1.status = 200 ∧
    (handler env0 reqC1 fetchC1).1.body = some "\x7b\"season\":7,\"x\":1\x7d" ∧
    List.lookup "X-Calc-Match" (handler env0 reqC1 fetchC1).1.headers =
      some "hit" :=
  calc_hit_first_match env0 reqC1 fetchC1 200 (some "application/json")
    bodyC1 dataC1 recC1 rfl rfl rfl rfl rfl rfl rfl rfl rfl rfl

/-- C2: for every primary-kind (calc) GET request with a valid address,
the raw flag unset, a successful 2xx upstream fetch and a well-formed JSON
body in which the source's selection finds no record for the target
season, the handler's body is the literal `0` (not `null`, not an empty
object or array) and `X-Calc-Match` is `miss`. -/
theorem calc_miss_zero (env : Env) (req : Req)
    (fetchFn : String → FetchResult) (st : Nat) (ct : Option String)
    (bodyText : String) (data : Json)
    (hm : req.method = "GET")
    (ht : requestType req = "calc")
    (ha : isAddress (requestAddress req) = true)
    (hs : invalidSeason req = false)
    (hr : wantRaw req = false)
    (hsp : isSelfProxy (resolveTarget env req) req = false)
    (hf : fetchFn (resolveTarget env req) = .success st ct bodyText)
    (hok : statusOk st = true)
    (hp : parseJson bodyText = some data)
    (hpick : pickSeasonPayload data (seasonToPick env req) = none) :
    (handler env req fetchFn).1.status = st ∧
    (handler env req fetchFn).1.body = some "0" ∧
    List.lookup "X-Calc-Match" (handler env req fetchFn).1.headers =
      some "miss" := by
  have hv : isValidType req = true := by simp [isValidType, ht]
  rw [handler_success env req fetchFn st ct bodyText hm hv ha hs hsp hf,
    relayResponse_miss ht hok hr hp hpick]
  exact ⟨rfl, rfl, lookup_shaped_miss env req (resolveTarget env req) ct⟩

/-- Calc request asking explicitly for season 5. -/
def reqC2 : Req := ⟨"GET", some "calc", none, some addr0, some "5", none, none, none⟩

/-- C2 witness: season 5 is absent from the mocked array, so the body is
the three-character-free literal `0` and the header reads `miss`. -/
theorem calc_miss_zero_witness :
    (handler env0 reqC2 fetchC1).1.status = 200 ∧
    (handler env0 reqC2 fetchC1).1.body = some "0" ∧
    List.lookup "X-Calc-Match" (handler env0 reqC2 fetchC1).1.headers =
      some "miss" :=
  calc_miss_zero env0 reqC2 fetchC1 200 (some "application/json")
    bodyC1 dataC1 rfl rfl rfl rfl rfl rfl rfl rfl rfl rfl

/-- C3: for every GET request of any valid kind that passes address and
season validation, when the resolved whitelisted target's host equals the
inbound request's declared host (x-forwarded-host preferred over host,
case-insensitively — the source's `isSelfProxy`), the handler responds 400
with the offending target echoed in the body, and the outbound fetch is
never invoked. -/
theorem self_proxy_guard (env : Env) (req : Req)
    (fetchFn : String → FetchResult)
    (hm : req.method = "GET")
    (hv : isValidType req = true)
    (ha : isAddress (requestAddress req) = true)
    (hs : invalidSeason req = false)
    (hsp : isSelfProxy (resolveTarget env req) req = true) :
    (handler env req fetchFn).1.status = 400 ∧
    (handler env req fetchFn).1.body =
      some (Json.stringify (selfProxyBody (resolveTarget env req))) ∧
    (handler env req fetchFn).2 = [] := by
  rw [handler_selfProxy env req fetchFn hm hv ha hs hsp]
  exact ⟨rfl, rfl, rfl⟩

/-- Calc request whose declared inbound host is the calc upstream's own
host. -/
def reqC3 : Req :=
  ⟨"GET", none, none, some addr0, none, none, some "portal.soneium.org", none⟩

/-- A fetch that would be observable if invoked: the returned call list of
the handler plays the role of the spy. -/
def fetchC3 : String → FetchResult := fun _ => .success 200 none "[]"

/-- C3 witness: the self-proxy request yields 400, the body echoes the
target, and the call list — the spy on the outbound fetch — is empty. -/
theorem self_proxy_guard_witness :
    (handler env0 reqC3 fetchC3).1.status = 400 ∧
    (handler env0 reqC3 fetchC3).1.body =
      some ("\x7b\"error\":\"Refusing to proxy to self\",\"target\":\"https://portal.soneium.org/api/profile/calculator?address=0xaaaaaaaaaaaaaaaaaaaaaaaaaaaaaaaaaaaaaaaa\"\x7d") ∧
    (handler env0 reqC3 fetchC3).2 = [] :=
  self_proxy_guard env0 reqC3 fetchC3 rfl rfl rfl rfl rfl

/-- A digit never `==`-equals a non-digit character. -/
theorem digit_beq_false {c d : Char} (hc : c.isDigit = true)
    (hd : d.isDigit = false) : (c == d) = false := by
  rw [beq_eq_false_iff_ne]
  rintro rfl
  rw [hc] at hd
  exact Bool.noConfusion hd

/-- Digits are not JS whitespace, so `parseInt` trimming leaves a digit
string untouched. -/
theorem digit_not_jsWs {c : Char} (h : c.isDigit = true) :
    jsWhitespaceChar c = false := by
  unfold jsWhitespaceChar
  simp only [Bool.or_eq_false_iff]
  exact ⟨⟨⟨⟨⟨⟨digit_beq_false h (by decide), digit_beq_false h (by decide)⟩,
    digit_beq_false h (by decide)⟩, digit_beq_false h (by decide)⟩,
    digit_beq_false h (by decide)⟩, digit_beq_false h (by decide)⟩,
    digit_beq_false h (by decide)⟩

/-- A digit carries no sign, so the sign split is trivial on it. -/
theorem signSplit_digit {c : Char} {cs : List Char} (hc : c.isDigit = true) :
    signSplit (c :: cs) = (1, c :: cs) := by
  unfold signSplit
  simp [digit_beq_false hc (show ('+').isDigit = false by decide),
    digit_beq_false hc (show ('-').isDigit = false by decide)]

/-- `takeWhile` keeps a list all of whose elements satisfy the predicate. -/
theorem takeWhile_of_all {p : Char → Bool} {l : List Char}
    (h : l.all p = true) : l.takeWhile p = l := by
  induction l with
  | nil => rfl
  | cons a l ih =>
    simp only [List.all_cons, Bool.and_eq_true] at h
    simp [List.takeWhile_cons, h.1, ih h.2]

/-- On a nonempty pure-digit string, `parseInt(s, 10)` is the decimal
value of the digits (in particular a non-negative integer). -/
theorem parseIntBase10_digits {s : String} (hne : s.data ≠ [])
    (hd : s.data.all Char.isDigit = true) :
    parseIntBase10 s = some ((digitsToNat s.data : Nat) : Int) := by
  obtain ⟨c, cs, hcons⟩ := List.exists_cons_of_ne_nil hne
  rw [hcons] at hd
  have hc : c.isDigit = true := by
    simp only [List.all_cons, Bool.and_eq_true] at hd
    exact hd.1
  unfold parseIntBase10
  rw [hcons, List.dropWhile_cons, digit_not_jsWs hc]
  simp only [Bool.false_eq_true, if_false, signSplit_digit hc,
    List.span_eq_take_drop, takeWhile_of_all hd]
  simp

/-- A supplied, nonempty season parameter makes `hasSeasonParam` true. -/
theorem hasSeasonParam_some {req : Req} {s : String}
    (hss : req.qSeason = some s) (hne : s ≠ "") :
    hasSeasonParam req = true := by
  unfold hasSeasonParam
  rw [hss]
  simp [hne]

/-- A supplied, nonempty season parameter is parsed with `parseInt`. -/
theorem seasonOf_some {req : Req} {s : String}
    (hss : req.qSeason = some s) (hne : s ≠ "") :
    seasonOf req = parseIntBase10 s := by
  unfold seasonOf
  rw [hasSeasonParam_some hss hne, hss]
  simp

/-- C4: for season-accepting kinds (`tx` and `calc`) on a GET with a valid
address, a supplied season that `parseInt` cannot read (NaN) or reads as a
negative integer yields a 400 `Invalid season` response, while a supplied
season written as a nonempty digit string parses as a non-negative base-10
integer and passes the season validation. -/
theorem season_validation (env : Env) (req : Req)
    (fetchFn : String → FetchResult) (s : String)
    (hm : req.method = "GET")
    (ht : requestType req = "tx" ∨ requestType req = "calc")
    (ha : isAddress (requestAddress req) = true)
    (hss : req.qSeason = some s) (hne : s ≠ "") :
    ((parseIntBase10 s = none ∨ (∃ n, parseIntBase10 s = some n ∧ n < 0)) →
      (handler env req fetchFn).1.status = 400 ∧
      (handler env req fetchFn).1.body =
        some (Json.stringify invalidSeasonBody)) ∧
    (s.data.all Char.isDigit = true →
      seasonOf req = some ((digitsToNat s.data : Nat) : Int) ∧
      invalidSeason req = false) := by
  have hv : isValidType req = true := by
    rcases ht with h | h <;> simp [isValidType, h]
  have htx : (requestType req == "tx" || requestType req == "calc") = true := by
    rcases ht with h | h <;> simp [h]
  have hsp := hasSeasonParam_some hss hne
  have hso := seasonOf_some hss hne
  constructor
  · intro hbad
    have hinv : invalidSeason req = true := by
      unfold invalidSeason
      rw [htx, hsp, hso]
      rcases hbad with h | ⟨n, hn, hneg⟩
      · rw [h]
        simp
      · rw [hn]
        simp [hneg]
    rw [handler_badSeason env req fetchFn hm hv ha hinv]
    exact ⟨rfl, rfl⟩
  · intro hdig
    have hne' : s.data ≠ [] := by
      intro h0
      exact hne (by cases s; simp at h0; simp [h0])
    have hp := parseIntBase10_digits hne' hdig
    refine ⟨by rw [hso, hp], ?_⟩
    unfold invalidSeason
    rw [htx, hsp, hso, hp]
    simp

/-- A `tx` request supplying the negative season `-3`. -/
def reqC4 : Req := ⟨"GET", some "tx", none, some addr0, some "-3", none, none, none⟩

/-- C4 witness: the negative season `-3` is rejected with the 400
`Invalid season` body. -/
theorem season_validation_witness :
    (handler env0 reqC4 fetchC3).1.status = 400 ∧
    (handler env0 reqC4 fetchC3).1.body =
      some "\x7b\"error\":\"Invalid season\"\x7d" :=
  (season_validation env0 reqC4 fetchC3 "-3" rfl (Or.inl rfl) rfl rfl
    (by decide)).1 (Or.inr ⟨-3, by decide, by decide⟩)

/-- `x || d` keeps a present, nonempty string. -/
theorem jsOrStr_some_ne {s : String} (d : String) (h : s ≠ "") :
    jsOrStr (some s) d = s := by
  unfold jsOrStr
  simp [h]

/-- C5: for every GET request whose address parameter is missing or fails
the `0x` + 40-hex-digits shape (the source's `isAddress`), the handler
returns 400 — whatever the kind and the other parameters — and makes no
outbound call. -/
theorem bad_address_400 (env : Env) (req : Req)
    (fetchFn : String → FetchResult)
    (hm : req.method = "GET")
    (ha : isAddress (requestAddress req) = false) :
    (handler env req fetchFn).1.status = 400 ∧
    (handler env req fetchFn).2 = [] := by
  by_cases hv : isValidType req = true
  · rw [handler_badAddress env req fetchFn hm hv ha]
    exact ⟨rfl, rfl⟩
  · have hv' : isValidType req = false := by
      rw [Bool.not_eq_true] at hv
      exact hv
    rw [handler_badType env req fetchFn hm hv']
    exact ⟨rfl, rfl⟩

/-- A request with a malformed address (too short). -/
def reqC5 : Req := ⟨"GET", some "tx", none, some "0x123", some "7", some "1", none, none⟩

/-- C5 witness: the malformed address yields 400 with no outbound call. -/
theorem bad_address_400_witness :
    (handler env0 reqC5 fetchC3).1.status = 400 ∧
    (handler env0 reqC5 fetchC3).2 = [] :=
  bad_address_400 env0 reqC5 fetchC3 rfl rfl

/-- C6: for every primary-kind (calc) GET request with the raw flag set
(`raw` equal to `1` or `true` case-insensitively), the upstream body is
relayed byte-for-byte regardless of its content, with the upstream status
and (nonempty) content type, and neither `X-Calc-Match` nor
`X-Calc-Season-Requested` is set. -/
theorem raw_passthrough (env : Env) (req : Req)
    (fetchFn : String → FetchResult) (st : Nat) (c bodyText : String)
    (hm : req.method = "GET")
    (ht : requestType req = "calc")
    (ha : isAddress (requestAddress req) = true)
    (hs : invalidSeason req = false)
    (hr : wantRaw req = true)
    (hsp : isSelfProxy (resolveTarget env req) req = false)
    (hf : fetchFn (resolveTarget env req) = .success st (some c) bodyText)
    (hc : c ≠ "") :
    (handler env req fetchFn).1.body = some bodyText ∧
    (handler env req fetchFn).1.status = st ∧
    List.lookup "Content-Type" (handler env req fetchFn).1.headers = some c ∧
    List.lookup "X-Calc-Match" (handler env req fetchFn).1.headers = none ∧
    List.lookup "X-Calc-Season-Requested" (handler env req fetchFn).1.headers =
      none := by
  have hv : isValidType req = true := by simp [isValidType, ht]
  have hg : (requestType req == "calc" && statusOk st && !(wantRaw req)) =
      false := by simp [hr]
  rw [handler_success env req fetchFn st (some c) bodyText hm hv ha hs hsp hf,
    relayResponse_passthrough hg]
  refine ⟨rfl, rfl, ?_, ?_, ?_⟩
  · rw [lookup_base_contentType, jsOrStr_some_ne _ hc]
  · exact lookup_base_match env (resolveTarget env req) _
  · exact lookup_base_seasonReq env (resolveTarget env req) _

/-- Calc request with `raw=1`. -/
def reqC6 : Req := ⟨"GET", some "calc", none, some addr0, none, some "1", none, none⟩

/-- Upstream response for the raw witness: a body the shaper would
otherwise rewrite (season 7 exists, but also trailing content). -/
def fetchC6 : String → FetchResult :=
  fun _ => .success 200 (some "text/plain") bodyC1

/-- C6 witness: with `raw=1` the body comes back byte-for-byte, the
upstream content type survives, and no calc headers are set. -/
theorem raw_passthrough_witness :
    (handler env0 reqC6 fetchC6).1.body = some bodyC1 ∧
    (handler env0 reqC6 fetchC6).1.status = 200 ∧
    List.lookup "Content-Type" (handler env0 reqC6 fetchC6).1.headers =
      some "text/plain" ∧
    List.lookup "X-Calc-Match" (handler env0 reqC6 fetchC6).1.headers = none ∧
    List.lookup "X-Calc-Season-Requested"
      (handler env0 reqC6 fetchC6).1.headers = none :=
  raw_passthrough env0 reqC6 fetchC6 200 "text/plain" bodyC1
    rfl rfl rfl rfl rfl rfl rfl (by decide)

/-- C7: for every transactions-kind (tx) GET request with a valid address,
the outbound target carries a `season` query parameter equal to the
configured default transactions season when no season was supplied and to
the explicitly parsed season otherwise; the default transactions season
itself falls back to the global default season when not independently
configured; and the handler fetches exactly that target. -/
theorem tx_default_season (env : Env) (req : Req)
    (fetchFn : String → FetchResult)
    (hm : req.method = "GET")
    (ht : requestType req = "tx")
    (ha : isAddress (requestAddress req) = true)
    (hs : invalidSeason req = false)
    (hsp : isSelfProxy (resolveTarget env req) req = false) :
    (hasSeasonParam req = false →
      resolveTarget env req = upstreamTx env ++ "?" ++
        queryString [("address", requestAddress req),
          ("season", jsNumToString (defaultTxSeason env))]) ∧
    ((env.DEFAULT_TX_SEASON = none ∨ env.DEFAULT_TX_SEASON = some "") →
      defaultTxSeason env = defaultSeason env) ∧
    (hasSeasonParam req = true →
      resolveTarget env req = upstreamTx env ++ "?" ++
        queryString [("address", requestAddress req),
          ("season", jsIntOptToString (seasonOf req))]) ∧
    (handler env req fetchFn).2 = [resolveTarget env req] := by
  have hv : isValidType req = true := by simp [isValidType, ht]
  refine ⟨?_, ?_, ?_, ?_⟩
  · intro hseason
    unfold resolveTarget
    rw [ht]
    simp [hseason]
  · intro hd
    unfold defaultTxSeason
    rcases hd with h | h
    · rw [h]
    · rw [h]
      simp
  · intro hseason
    unfold resolveTarget
    rw [ht]
    simp [hseason]
  · cases hfc : fetchFn (resolveTarget env req) with
    | success st ct bodyText =>
      rw [handler_success env req fetchFn st ct bodyText hm hv ha hs hsp hfc]
    | failure e =>
      rw [handler_failure env req fetchFn e hm hv ha hs hsp hfc]

/-- A tx request with no season parameter. -/
def reqC7 : Req := ⟨"GET", some "tx", none, some addr0, none, none, none, none⟩

/-- C7 witness: with no season supplied and an empty environment, the
outbound tx target carries `season=7` (the global default through the
fallback), and the handler fetches exactly it. -/
theorem tx_default_season_witness :
    resolveTarget env0 reqC7 =
      "https://portal.soneium.org/api/profile/tx-per-season?address=0xaaaaaaaaaaaaaaaaaaaaaaaaaaaaaaaaaaaaaaaa&season=7" ∧
    defaultTxSeason env0 = defaultSeason env0 ∧
    (handler env0 reqC7 fetchC3).2 = [resolveTarget env0 reqC7] :=
  ⟨(tx_default_season env0 reqC7 fetchC3 rfl rfl rfl rfl rfl).1 rfl,
   (tx_default_season env0 reqC7 fetchC3 rfl rfl rfl rfl rfl).2.1 (Or.inl rfl),
   (tx_default_season env0 reqC7 fetchC3 rfl rfl rfl rfl rfl).2.2.2⟩

/-- C8: for every primary-kind (calc) GET request without the raw flag
whose fetch succeeds but whose body is not parseable JSON, the handler
does not fail: the body text is relayed unmodified with the upstream
status, and no season selection happens (no calc headers are set). -/
theorem nonjson_passthrough (env : Env) (req : Req)
    (fetchFn : String → FetchResult) (st : Nat) (ct : Option String)
    (bodyText : String)
    (hm : req.method = "GET")
    (ht : requestType req = "calc")
    (ha : isAddress (requestAddress req) = true)
    (hs : invalidSeason req = false)
    (_hr : wantRaw req = false)
    (hsp : isSelfProxy (resolveTarget env req) req = false)
    (hf : fetchFn (resolveTarget env req) = .success st ct bodyText)
    (hp : parseJson bodyText = none) :
    (handler env req fetchFn).1.body = some bodyText ∧
    (handler env req fetchFn).1.status = st ∧
    List.lookup "X-Calc-Match" (handler env req fetchFn).1.headers = none ∧
    List.lookup "X-Calc-Season-Requested" (handler env req fetchFn).1.headers =
      none := by
  have hv : isValidType req = true := by simp [isValidType, ht]
  rw [handler_success env req fetchFn st ct bodyText hm hv ha hs hsp hf,
    relayResponse_badJson hp]
  exact ⟨rfl, rfl, lookup_base_match env (resolveTarget env req) _,
    lookup_base_seasonReq env (resolveTarget env req) _⟩

/-- A 200 upstream answer whose body is not JSON. -/
def fetchC8 : String → FetchResult :=
  fun _ => .success 200 (some "text/html") "oops, not json"

/-- C8 witness: the malformed body passes through untouched on a 200,
with no calc headers. -/
theorem nonjson_passthrough_witness :
    (handler env0 reqC1 fetchC8).1.body = some "oops, not json" ∧
    (handler env0 reqC1 fetchC8).1.status = 200 ∧
    List.lookup "X-Calc-Match" (handler env0 reqC1 fetchC8).1.headers = none ∧
    List.lookup "X-Calc-Season-Requested"
      (handler env0 reqC1 fetchC8).1.headers = none :=
  nonjson_passthrough env0 reqC1 fetchC8 200 (some "text/html")
    "oops, not json" rfl rfl rfl rfl rfl rfl rfl rfl

/-- C9: for every primary-kind (calc) GET request without the raw flag
whose upstream answers with a non-2xx status, no shaping is applied even
though `raw` was not supplied: body and status relay unchanged, the
content type is the upstream's (not forced to JSON), and neither calc
header is set. -/
theorem non2xx_passthrough (env : Env) (req : Req)
    (fetchFn : String → FetchResult) (st : Nat) (ct : Option String)
    (bodyText : String)
    (hm : req.method = "GET")
    (ht : requestType req = "calc")
    (ha : isAddress (requestAddress req) = true)
    (hs : invalidSeason req = false)
    (_hr : wantRaw req = false)
    (hsp : isSelfProxy (resolveTarget env req) req = false)
    (hf : fetchFn (resolveTarget env req) = .success st ct bodyText)
    (hok : statusOk st = false) :
    (handler env req fetchFn).1.body = some bodyText ∧
    (handler env req fetchFn).1.status = st ∧
    List.lookup "X-Calc-Match" (handler env req fetchFn).1.headers = none ∧
    List.lookup "X-Calc-Season-Requested" (handler env req fetchFn).1.headers =
      none ∧
    (∀ c, ct = some c → c ≠ "" →
      List.lookup "Content-Type" (handler env req fetchFn).1.headers =
        some c) := by
  have hv : isValidType req = true := by simp [isValidType, ht]
  have hg : (requestType req == "calc" && statusOk st && !(wantRaw req)) =
      false := by simp [hok]
  rw [handler_success env req fetchFn st ct bodyText hm hv ha hs hsp hf,
    relayResponse_passthrough hg]
  refine ⟨rfl, rfl, lookup_base_match env (resolveTarget env req) _,
    lookup_base_seasonReq env (resolveTarget env req) _, ?_⟩
  intro c hceq hcne
  rw [hceq, lookup_base_contentType, jsOrStr_some_ne _ hcne]

/-- A 404 upstream answer with a JSON body that would otherwise be
shaped. -/
def fetchC9 : String → FetchResult :=
  fun _ => .success 404 (some "text/html") bodyC1

/-- C9 witness: the 404 passes through with its own content type and no
calc headers, although the body does contain a season-7 record. -/
theorem non2xx_passthrough_witness :
    (handler env0 reqC1 fetchC9).1.body = some bodyC1 ∧
    (handler env0 reqC1 fetchC9).1.status = 404 ∧
    List.lookup "X-Calc-Match" (handler env0 reqC1 fetchC9).1.headers = none ∧
    List.lookup "X-Calc-Season-Requested"
      (handler env0 reqC1 fetchC9).1.headers = none ∧
    List.lookup "Content-Type" (handler env0 reqC1 fetchC9).1.headers =
      some "text/html" :=
  ⟨(non2xx_passthrough env0 reqC1 fetchC9 404 (some "text/html") bodyC1
      rfl rfl rfl rfl rfl rfl rfl rfl).1,
   (non2xx_passthrough env0 reqC1 fetchC9 404 (some "text/html") bodyC1
      rfl rfl rfl rfl rfl rfl rfl rfl).2.1,
   (non2xx_passthrough env0 reqC1 fetchC9 404 (some "text/html") bodyC1
      rfl rfl rfl rfl rfl rfl rfl rfl).2.2.1,
   (non2xx_passthrough env0 reqC1 fetchC9 404 (some "text/html") bodyC1
      rfl rfl rfl rfl rfl rfl rfl rfl).2.2.2.1,
   (non2xx_passthrough env0 reqC1 fetchC9 404 (some "text/html") bodyC1
      rfl rfl rfl rfl rfl rfl rfl rfl).2.2.2.2 "text/html" rfl (by decide)⟩

/-- The relay does not depend on the season parameter when the kind is
`bonus` (the shaping guard is already false on the kind). -/
theorem relayResponse_setSeason_bonus (env : Env) (req : Req)
    (ht : requestType req = "bonus") (s' : Option String) (target : String)
    (st : Nat) (ct : Option String) (bodyText : String) :
    relayResponse env (setSeason req s') target st ct bodyText =
      relayResponse env req target st ct bodyText := by
  unfold relayResponse
  rw [show requestType (setSeason req s') = requestType req from rfl, ht]
  simp

/-- The resolved bonus target does not depend on the season parameter. -/
theorem resolveTarget_setSeason_bonus (env : Env) (req : Req)
    (ht : requestType req = "bonus") (s' : Option String) :
    resolveTarget env (setSeason req s') = resolveTarget env req := by
  unfold resolveTarget
  rw [show requestType (setSeason req s') = requestType req from rfl, ht]
  simp
  rfl

/-- C10: for every bonus-kind GET request with a valid address, the season
parameter is never validated (the season guard is false whatever was
supplied), the resolved outbound target carries only the address query
parameter, and the whole handler result is independent of the season
parameter. -/
theorem bonus_ignores_season (env : Env) (req : Req)
    (fetchFn : String → FetchResult)
    (hm : req.method = "GET")
    (ht : requestType req = "bonus")
    (ha : isAddress (requestAddress req) = true) :
    invalidSeason req = false ∧
    resolveTarget env req =
      upstreamBonus env ++ "?" ++ queryString [("address", requestAddress req)] ∧
    (∀ s', handler env (setSeason req s') fetchFn = handler env req fetchFn) := by
  have hv : isValidType req = true := by simp [isValidType, ht]
  have hinv : invalidSeason req = false := by
    unfold invalidSeason
    rw [ht]
    simp
  refine ⟨hinv, ?_, ?_⟩
  · unfold resolveTarget
    rw [ht]
    simp
  · intro s'
    have hm' : (setSeason req s').method = "GET" := hm
    have hv' : isValidType (setSeason req s') = true := hv
    have ha' : isAddress (requestAddress (setSeason req s')) = true := ha
    have hinv' : invalidSeason (setSeason req s') = false := by
      unfold invalidSeason
      rw [show requestType (setSeason req s') = requestType req from rfl, ht]
      simp
    have htar := resolveTarget_setSeason_bonus env req ht s'
    by_cases hsp : isSelfProxy (resolveTarget env req) req = true
    · have hsp' : isSelfProxy (resolveTarget env (setSeason req s'))
          (setSeason req s') = true := by
        rw [htar]
        exact hsp
      rw [handler_selfProxy env (setSeason req s') fetchFn hm' hv' ha' hinv'
          hsp',
        handler_selfProxy env req fetchFn hm hv ha hinv hsp, htar]
    · have hsp0 : isSelfProxy (resolveTarget env req) req = false := by
        rw [Bool.not_eq_true] at hsp
        exact hsp
      have hsp0' : isSelfProxy (resolveTarget env (setSeason req s'))
          (setSeason req s') = false := by
        rw [htar]
        exact hsp0
      cases hfc : fetchFn (resolveTarget env req) with
      | success st ct bodyText =>
        have hfc' : fetchFn (resolveTarget env (setSeason req s')) =
            .success st ct bodyText := by
          rw [htar]
          exact hfc
        rw [handler_success env (setSeason req s') fetchFn st ct bodyText hm'
            hv' ha' hinv' hsp0' hfc',
          handler_success env req fetchFn st ct bodyText hm hv ha hinv hsp0
            hfc,
          relayResponse_setSeason_bonus env req ht s', htar]
      | failure e =>
        have hfc' : fetchFn (resolveTarget env (setSeason req s')) =
            .failure e := by
          rw [htar]
          exact hfc
        rw [handler_failure env (setSeason req s') fetchFn e hm' hv' ha' hinv'
            hsp0' hfc',
          handler_failure env req fetchFn e hm hv ha hinv hsp0 hfc, htar]

/-- A bonus request carrying a season value that would fail validation on
the season-accepting kinds. -/
def reqC10 : Req :=
  ⟨"GET", some "bonus", none, some addr0, some "garbage!!", none, none, none⟩

/-- C10 witness: the nonsense season on a bonus request trips no guard,
the target carries only the address parameter, and replacing the season by
another value leaves the whole response unchanged. -/
theorem bonus_ignores_season_witness :
    invalidSeason reqC10 = false ∧
    resolveTarget env0 reqC10 =
      "https://portal.soneium.org/api/profile/bonus-dapp?address=0xaaaaaaaaaaaaaaaaaaaaaaaaaaaaaaaaaaaaaaaa" ∧
    handler env0 (setSeason reqC10 (some "-9")) fetchC3 =
      handler env0 reqC10 fetchC3 :=
  ⟨(bonus_ignores_season env0 reqC10 fetchC3 rfl rfl rfl).1,
   (bonus_ignores_season env0 reqC10 fetchC3 rfl rfl rfl).2.1,
   (bonus_ignores_season env0 reqC10 fetchC3 rfl rfl rfl).2.2 (some "-9")⟩

end Suoni
